import Mathlib

/-!
Shallow embedding of the NEXUS career-recommendation backend
(`src/main.py`, `src/skill_roadmaps.py`).

The career catalog (`careers.json`) is external data loaded at startup, so
every operation below is parametrized by the catalog `cat : List CareerRecord`.
Python `set` values are represented by `List String` up to set-membership;
`list(set(a) - set(b))` is embedded as a deduplicated filter, whose element
ordering is canonical here because Python leaves it unspecified.
Python dicts that are iterated in insertion order are embedded as association
lists. Python's stable `list.sort(key=..., reverse=True)` is embedded as a
stable descending insertion sort (`stableSortDesc`).
-/

namespace Nexus

/-- One record of the career catalog (`careers.json` entries as read by
`main.py`): fields accessed via `career[...]` or `career.get(...)`. -/
structure CareerRecord where
  career : String
  interests : List String
  required_skills : List String
  difficulty : String
  branch : List String := []
  tools : List String := []
  certifications : List String := []
  exams : List String := []
  future_trends : List String := []
  startup_guidance : Option String := none
deriving Repr, DecidableEq

/-- Direct-profile query body of `POST /recommend-career`. -/
structure Student where
  name : String
  interests : List String
  current_skills : List String
deriving Repr, DecidableEq

/-- `list(set(required) - set(current))`: the required skills not currently
held, as a duplicate-free list (Python's element order is unspecified). -/
def setDiff (required current : List String) : List String :=
  (required.filter (fun s => !(current.contains s))).dedup

/-- `len(set(a).intersection(set(b)))`: the number of distinct elements of
`a` that also occur in `b`. -/
def interestMatchScore (a b : List String) : Nat :=
  ((a.dedup).filter (fun i => b.contains i)).length

/-- A recommendation dict built by `recommend_career` (`main.py` lines 40-52). -/
structure Recommendation where
  career : String
  interest_match_score : Nat
  missing_skills : List String
  difficulty : String
  branch : List String
  required_skills : List String
  tools : List String
  certifications : List String
  exams : List String
  future_trends : List String
  startup_guidance : Option String
deriving Repr, DecidableEq

/-- A recommendation dict built by `quiz_recommend_career` (`main.py`
lines 122-133); unlike `Recommendation` it carries no `startup_guidance`. -/
structure QuizRecommendation where
  career : String
  interest_match_score : Nat
  missing_skills : List String
  difficulty : String
  branch : List String
  required_skills : List String
  tools : List String
  certifications : List String
  exams : List String
  future_trends : List String
deriving Repr, DecidableEq

/-- Insert `r` into a descending-sorted list, after all entries whose key is
`≥ key r` — the insertion step of a stable descending sort. -/
def sortedInsertDesc {α : Type} (key : α → Nat) (r : α) : List α → List α
  | [] => [r]
  | x :: xs => if key x < key r then r :: x :: xs else x :: sortedInsertDesc key r xs

/-- Stable descending sort by `key`: the embedding of Python's stable
`list.sort(key=..., reverse=True)`. -/
def stableSortDesc {α : Type} (key : α → Nat) (l : List α) : List α :=
  l.foldl (fun acc r => sortedInsertDesc key r acc) []

/-- Response body of `POST /recommend-career`. -/
structure RecommendResponse where
  student : String
  recommended_careers : List Recommendation
deriving Repr, DecidableEq

/-- The `recommendations` list built by the loop of `recommend_career`
(`main.py` lines 28-52), in catalog order. -/
def recommendPool (cat : List CareerRecord) (student : Student) : List Recommendation :=
  cat.filterMap (fun career =>
    let interest_match := interestMatchScore student.interests career.interests
    if 0 < interest_match then
      some { career := career.career
             interest_match_score := interest_match
             missing_skills := setDiff career.required_skills student.current_skills
             difficulty := career.difficulty
             branch := career.branch
             required_skills := career.required_skills
             tools := career.tools
             certifications := career.certifications
             exams := career.exams
             future_trends := career.future_trends
             startup_guidance := career.startup_guidance }
    else none)

/-- `recommend_career` (`main.py` lines 26-61): build the pool, sort it
descending by score (stable), return the top 3. -/
def recommendCareer (cat : List CareerRecord) (student : Student) : RecommendResponse :=
  { student := student.name
    recommended_careers :=
      (stableSortDesc Recommendation.interest_match_score (recommendPool cat student)).take 3 }

/-- The Technical interest keyword list (`main.py` lines 79-84). -/
def technicalInterests : List String :=
  ["Programming", "AI", "Technology", "Data", "Cloud", "Security",
   "Automation", "Robotics", "IoT", "Embedded Systems", "Software",
   "Web Development", "Machine Learning", "Computer Vision",
   "Networking", "Blockchain", "Quantum Computing"]

/-- The Creative interest keyword list (`main.py` lines 85-89). -/
def creativeInterests : List String :=
  ["Design", "Media", "Animation", "Gaming", "Creative",
   "Art", "Visual", "UX", "UI", "Graphics", "Multimedia",
   "Video", "Audio", "Photography", "Content Creation"]

/-- The Business interest keyword list (`main.py` lines 90-94). -/
def businessInterests : List String :=
  ["Management", "Business", "Sales", "Marketing", "Finance",
   "Entrepreneurship", "Product", "Strategy", "Operations",
   "Consulting", "Project Management", "Leadership", "Planning"]

/-- The Social interest keyword list (`main.py` lines 95-99). -/
def socialInterests : List String :=
  ["Education", "Healthcare", "Community", "Counseling", "Social",
   "Teaching", "Training", "Wellness", "Human Services",
   "Non-profit", "Public Health", "Clinical", "Rehabilitation"]

/-- The Research interest keyword list (`main.py` lines 100-104). -/
def researchInterests : List String :=
  ["Research", "Science", "Analysis", "Investigation",
   "Data Analysis", "Statistics", "Academic", "Theoretical",
   "Experimental", "Scientific", "Genomics", "Physics"]

/-- The `domain_interests` dict of `quiz_recommend_career` (`main.py`
lines 78-105), in insertion order. -/
def domainInterests : List (String × List String) :=
  [("T", technicalInterests), ("C", creativeInterests), ("B", businessInterests),
   ("S", socialInterests), ("R", researchInterests)]

/-- `domain_interests.get(domain, domain_interests["T"])` (`main.py` line 107). -/
def relevantInterests (domain : String) : List String :=
  (domainInterests.lookup domain).getD technicalInterests

/-- The domain-name dict of the quiz response (`main.py` lines 143-149). -/
def domainNames : List (String × String) :=
  [("T", "Technical"), ("C", "Creative"), ("B", "Business"),
   ("S", "Social"), ("R", "Research")]

/-- Response body of `POST /quiz-recommend-career`. -/
structure QuizResponse where
  domain : String
  domain_name : String
  recommended_careers : List QuizRecommendation
deriving Repr, DecidableEq

/-- The `recommendations` list built by the loop of `quiz_recommend_career`
(`main.py` lines 109-133), in catalog order. -/
def quizPool (cat : List CareerRecord) (domain : String) (current_skills : List String) :
    List QuizRecommendation :=
  cat.filterMap (fun career =>
    let interest_match := interestMatchScore career.interests (relevantInterests domain)
    if 0 < interest_match then
      some { career := career.career
             interest_match_score := interest_match
             missing_skills := setDiff career.required_skills current_skills
             difficulty := career.difficulty
             branch := career.branch
             required_skills := career.required_skills
             tools := career.tools
             certifications := career.certifications
             exams := career.exams
             future_trends := career.future_trends }
    else none)

/-- `quiz_recommend_career` (`main.py` lines 64-151): derive the interest set
from the domain code (unknown codes fall back to the Technical list), build
the pool, sort it descending by score (stable), return the top 5; the
response echoes `domain` and maps it to a display name, `"General"` for
unknown codes. -/
def quizRecommendCareer (cat : List CareerRecord) (domain : String)
    (current_skills : List String) : QuizResponse :=
  { domain := domain
    domain_name := (domainNames.lookup domain).getD "General"
    recommended_careers :=
      (stableSortDesc QuizRecommendation.interest_match_score
        (quizPool cat domain current_skills)).take 5 }

/-- The non-empty `result` dict of `skill_gap` (`main.py` lines 160-163);
`none` models the empty dict `{}`. -/
structure SkillGapResult where
  career : String
  missing_skills : List String
deriving Repr, DecidableEq

/-- `skill_gap` (`main.py` lines 154-165): scan the whole catalog,
overwriting `result` at every record whose name equals `target_career`
(`student.get("target_career")`, which may be absent). -/
def skillGap (cat : List CareerRecord) (target_career : Option String)
    (current_skills : List String) : Option SkillGapResult :=
  cat.foldl (fun result career =>
    if some career.career = target_career then
      some { career := career.career
             missing_skills := setDiff career.required_skills current_skills }
    else result) none

/-- One three-tier entry of the skill roadmap table (`skill_roadmaps.py`). -/
structure RoadmapEntry where
  beginner : List String
  intermediate : List String
  advanced : List String
deriving Repr, DecidableEq

/-- The `SKILL_ROADMAPS` table (`src/skill_roadmaps.py`), in insertion order. -/
def SKILL_ROADMAPS : List (String × RoadmapEntry) :=
  [("Python",
    { beginner := ["Syntax, variables, data types", "Loops and conditionals", "Functions"]
      intermediate := ["Object-Oriented Programming", "Working with files",
                       "Using libraries like NumPy, Pandas"]
      advanced := ["Build real-world projects", "Performance optimization",
                   "Interview-level problem solving"] }),
   ("Data Structures",
    { beginner := ["Arrays and strings", "Basic recursion"]
      intermediate := ["Linked lists, stacks, queues", "Trees and hash maps"]
      advanced := ["Graphs", "Competitive programming problems"] }),
   ("Algorithms",
    { beginner := ["Sorting basics", "Searching techniques"]
      intermediate := ["Greedy algorithms", "Divide and conquer"]
      advanced := ["Dynamic programming", "Advanced graph algorithms"] }),
   ("SQL",
    { beginner := ["SELECT, INSERT, UPDATE", "WHERE clause"]
      intermediate := ["JOINs", "Subqueries"]
      advanced := ["Query optimization", "Indexing"] }),
   ("Machine Learning",
    { beginner := ["What is ML", "Supervised vs Unsupervised learning"]
      intermediate := ["Regression and classification", "Model evaluation"]
      advanced := ["End-to-end ML projects", "Model deployment"] }),
   ("Deep Learning",
    { beginner := ["Neural networks basics", "Activation functions"]
      intermediate := ["CNNs and RNNs", "Training models"]
      advanced := ["Transformers", "Research papers"] }),
   ("Networking",
    { beginner := ["OSI model", "IP addressing"]
      intermediate := ["TCP/IP", "Routing and switching"]
      advanced := ["Network security", "Enterprise networking"] })]

/-- The synthesized roadmap entry for a skill absent from `SKILL_ROADMAPS`
(`main.py` lines 184-188). -/
def fallbackRoadmapEntry (skill : String) : RoadmapEntry :=
  { beginner := ["Learn basics of " ++ skill]
    intermediate := ["Practice " ++ skill]
    advanced := ["Build projects using " ++ skill] }

/-- The roadmap entry attached to one missing skill (`main.py` lines 181-188),
looked up in a given roadmap table. -/
def roadmapForIn (table : List (String × RoadmapEntry)) (skill : String) : RoadmapEntry :=
  match table.lookup skill with
  | some entry => entry
  | none => fallbackRoadmapEntry skill

/-- The roadmap entry attached to one missing skill, looked up in the
module-level `SKILL_ROADMAPS` table. -/
def roadmapFor (skill : String) : RoadmapEntry :=
  roadmapForIn SKILL_ROADMAPS skill

/-- The successful response dict of `learning_roadmap` (`main.py`
lines 190-194); the `learning_roadmap` dict is an association list keyed by
missing skill, in loop order. -/
structure RoadmapOk where
  career : String
  missing_skills : List String
  learning_roadmap : List (String × RoadmapEntry)
deriving Repr, DecidableEq

/-- Result of `learning_roadmap`: either the roadmap payload or the
`{"error": ...}` dict. -/
inductive RoadmapResult where
  | ok : RoadmapOk → RoadmapResult
  | error : String → RoadmapResult
deriving Repr, DecidableEq

/-- `learning_roadmap` (`main.py` lines 168-196): return inside the loop at
the first record whose name equals `target_career` (so first match wins);
the returned `career` field is `target_career` itself, which at a match
equals the record's name. If no record matches, return the error dict. -/
def learningRoadmapIn (table : List (String × RoadmapEntry)) (cat : List CareerRecord)
    (target_career : Option String) (current_skills : List String) : RoadmapResult :=
  match cat.find? (fun career => some career.career == target_career) with
  | some career =>
      let missing_skills := setDiff career.required_skills current_skills
      .ok { career := career.career
            missing_skills := missing_skills
            learning_roadmap := missing_skills.map (fun skill => (skill, roadmapForIn table skill)) }
  | none => .error "Career not found"

/-- `learning_roadmap` against the module-level `SKILL_ROADMAPS` table. -/
def learningRoadmap (cat : List CareerRecord) (target_career : Option String)
    (current_skills : List String) : RoadmapResult :=
  learningRoadmapIn SKILL_ROADMAPS cat target_career current_skills

/-- One entry of the `career_guidance` table in `get_rule_based_response`
(`main.py` lines 259-302). -/
structure Guidance where
  description : String
  skills : List String
  career_path : String
  salary_range : String
  growth_tips : String
deriving Repr, DecidableEq

/-- Boolean test that `needle` is a leading segment of `hay`. -/
def charsBeginWith : List Char → List Char → Bool
  | [], _ => true
  | _ :: _, [] => false
  | a :: as, b :: bs => a == b && charsBeginWith as bs

/-- Boolean test that `needle` occurs contiguously inside `hay`. -/
def charsContain (needle : List Char) : List Char → Bool
  | [] => needle.isEmpty
  | b :: bs => charsBeginWith needle (b :: bs) || charsContain needle bs

/-- Python's `needle in hay` on strings: substring containment. -/
def strContains (hay needle : String) : Bool :=
  charsContain needle.data hay.data

/-- Python's `str.lower()`, embedded as a character-wise lowercase map. -/
def strToLower (s : String) : String :=
  ⟨s.data.map Char.toLower⟩

/-- The response template at `main.py` line 353. -/
def salaryWithGuidance (career : String) (g : Guidance) : String :=
  "\uf8ff\u00fc\u00ed\u221e **Salary Overview for " ++ career ++ ":**\n\n" ++ g.salary_range ++ "\n\n\uf8ff\u00fc\u00ec\u00e0 **Factors affecting salary:**\n\u201a\u00c4\u00a2 Your skills and experience level\n\u201a\u00c4\u00a2 Company size and industry\n\u201a\u00c4\u00a2 Location (metro cities offer more)\n\u201a\u00c4\u00a2 Negotiation skills\n\nWould you like more specific salary information for a particular company or location?"

/-- The response template at `main.py` line 355. -/
def salaryGeneric (career : String) : String :=
  "\uf8ff\u00fc\u00ed\u221e **Salary Information for " ++ career ++ ":**\n\nSalaries vary based on:\n\u201a\u00c4\u00a2 Experience level (entry-level to senior)\n\u201a\u00c4\u00a2 Company type (FAANG, startups, service-based)\n\u201a\u00c4\u00a2 Location (metro vs tier-2 cities)\n\u201a\u00c4\u00a2 Your skill set\n\n**Typical ranges:**\n\u201a\u00c4\u00a2 Entry level: \u201a\u00c7\u03c03-6 LPA\n\u201a\u00c4\u00a2 Mid-level: \u201a\u00c7\u03c08-20 LPA\n\u201a\u00c4\u00a2 Senior level: \u201a\u00c7\u03c020-50+ LPA\n\nSpecific companies like Google, Microsoft, Amazon offer 20-50% higher packages."

/-- The response template at `main.py` line 359. -/
def skillsWithMissing (career : String) (missing_skills : List String) : String :=
  "\uf8ff\u00fc\u00e9\u00d8 **Skills to Develop for " ++ career ++ ":**\n\n**Priority Skills:**\n" ++ String.intercalate "\n" ((missing_skills.take 5).map (fun skill => "\u201a\u00c4\u00a2 " ++ skill)) ++ "\n\n**Recommended Learning Path:**\n1. Start with fundamentals of each skill\n2. Build practical projects\n3. Get certifications if available\n4. Practice on platforms like HackerRank\n5. Contribute to open source\n\n**Learning Resources:**\n\u201a\u00c4\u00a2 Coursera, Udemy for courses\n\u201a\u00c4\u00a2 YouTube tutorials\n\u201a\u00c4\u00a2 Official documentation\n\u201a\u00c4\u00a2 Hands-on projects"

/-- The response template at `main.py` line 361. -/
def skillsWithGuidance (career : String) (g : Guidance) : String :=
  "\uf8ff\u00fc\u00e9\u00d8 **Essential Skills for " ++ career ++ ":**\n\n" ++ String.intercalate "\n" (g.skills.map (fun skill => "\u201a\u00c4\u00a2 " ++ skill)) ++ "\n\n**How to build these skills:**\n1. **Programming:** Practice daily on LeetCode, HackerRank\n2. **Frameworks:** Follow official docs and build projects\n3. **Tools:** Get hands-on experience through internships\n4. **Soft Skills:** Take leadership roles in college projects\n\n**Recommended Resources:**\n\u201a\u00c4\u00a2 Online courses (Coursera, edX)\n\u201a\u00c4\u00a2 Books and documentation\n\u201a\u00c4\u00a2 Bootcamps and workshops"

/-- The response template at `main.py` line 363. -/
def skillsGeneric (career : String) : String :=
  "\uf8ff\u00fc\u00e9\u00d8 **Skills Development for " ++ career ++ ":**\n\nTo excel in this career path, focus on:\n\n**Technical Skills:**\n\u201a\u00c4\u00a2 Programming languages relevant to your field\n\u201a\u00c4\u00a2 Data structures and algorithms\n\u201a\u00c4\u00a2 Version control (Git)\n\u201a\u00c4\u00a2 Problem-solving abilities\n\n**Soft Skills:**\n\u201a\u00c4\u00a2 Communication\n\u201a\u00c4\u00a2 Team collaboration\n\u201a\u00c4\u00a2 Time management\n\u201a\u00c4\u00a2 Continuous learning mindset\n\n**Action Steps:**\n1. Identify specific skills needed from job postings\n2. Create a learning schedule\n3. Build real-world projects\n4. Get feedback and improve"

/-- The response template at `main.py` line 367. -/
def growthWithGuidance (career : String) (g : Guidance) : String :=
  "\uf8ff\u00fc\u00ec\u00e0 **Career Growth Path for " ++ career ++ ":**\n\n**Typical Progression:**\n" ++ g.career_path ++ "\n\n**Growth Tips:**\n\u201a\u00c4\u00a2 " ++ g.growth_tips ++ "\n\n**Key Milestones:**\n\u201a\u00c4\u00a2 0-2 years: Building fundamentals\n\u201a\u00c4\u00a2 2-5 years: Specializing and taking ownership\n\u201a\u00c4\u00a2 5+ years: Leadership and strategic impact\n\n**What employers look for at each level:**\n\u201a\u00c4\u00a2 Junior: Learning ability, coding skills\n\u201a\u00c4\u00a2 Senior: Technical depth, mentoring\n\u201a\u00c4\u00a2 Lead: Strategy, people management"

/-- The response template at `main.py` line 369. -/
def growthGeneric (career : String) : String :=
  "\uf8ff\u00fc\u00ec\u00e0 **Career Growth in " ++ career ++ ":**\n\n**Growth Strategies:**\n1. **Continuous Learning:** Stay updated with industry trends\n2. **Network:** Build professional relationships\n3. **Mentorship:** Find mentors and become one\n4. **Visibility:** Contribute to projects and communities\n5. **Results:** Deliver measurable impact\n\n**Timeline:**\n\u201a\u00c4\u00a2 Year 1-2: Learn and adapt\n\u201a\u00c4\u00a2 Year 2-5: Specialize and lead\n\u201a\u00c4\u00a2 Year 5+: Strategic impact and leadership\n\n**Accelerate Your Growth:**\n\u201a\u00c4\u00a2 Switch to product companies for faster growth\n\u201a\u00c4\u00a2 Consider international opportunities\n\u201a\u00c4\u00a2 Build a strong personal brand"

/-- The response template at `main.py` line 372. -/
def jobTemplate (career : String) : String :=
  "\uf8ff\u00fc\u00ed\u00ba **Job Search Tips for " ++ career ++ ":**\n\n**Resume Tips:**\n\u201a\u00c4\u00a2 Highlight relevant projects and skills\n\u201a\u00c4\u00a2 Use action verbs and quantify achievements\n\u201a\u00c4\u00a2 Tailor resume for each application\n\u201a\u00c4\u00a2 Include GitHub/portfolio links\n\n**Interview Preparation:**\n\u201a\u00c4\u00a2 Practice coding on LeetCode\n\u201a\u00c4\u00a2 Prepare system design questions\n\u201a\u00c4\u00a2 Study company-specific questions\n\u201a\u00c4\u00a2 Mock interviews with peers\n\n**Where to Apply:**\n\u201a\u00c4\u00a2 Company career pages\n\u201a\u00c4\u00a2 LinkedIn, Naukri, Indeed\n\u201a\u00c4\u00a2 referrals (most effective!)\n\u201a\u00c4\u00a2 Campus placements\n\n**Top Companies:**\nFAANG, Microsoft, Goldman Sachs, and growing startups"

/-- The response template at `main.py` line 375. -/
def educationTemplate (career : String) : String :=
  "\uf8ff\u00fc\u00ec\u00f6 **Educational Path for " ++ career ++ ":**\n\n**Minimum Requirements:**\n\u201a\u00c4\u00a2 Bachelor\x27s degree in relevant field\n\u201a\u00c4\u00a2 Strong foundation in programming/math\n\n**Recommended Courses:**\n\u201a\u00c4\u00a2 Data Structures & Algorithms\n\u201a\u00c4\u00a2 Database Management Systems\n\u201a\u00c4\u00a2 Operating Systems\n\u201a\u00c4\u00a2 Computer Networks\n\n**Higher Studies (Optional):**\n\u201a\u00c4\u00a2 M.Tech for research roles\n\u201a\u00c4\u00a2 MBA for management roles\n\u201a\u00c4\u00a2 Certifications for specific skills\n\n**Self-Learning:**\n\u201a\u00c4\u00a2 Online platforms: Coursera, edX, Udemy\n\u201a\u00c4\u00a2 Bootcamps for intensive training\n\u201a\u00c4\u00a2 Open source contributions"

/-- The response template at `main.py` line 378. -/
def startupTemplate (career : String) : String :=
  "\uf8ff\u00fc\u00f6\u00c4 **Startup Guidance for " ++ career ++ ":**\n\n**Starting a Tech Startup:**\n1. **Validate your idea:** Research market needs\n2. **Build an MVP:** Start with minimum features\n3. **Find co-founders:** Complementary skills\n4. **Get initial users:** Early adopter program\n5. **Seek funding:** Angels, VCs, incubators\n\n**Essential Skills:**\n\u201a\u00c4\u00a2 Technical expertise (you need to build!)\n\u201a\u00c4\u00a2 Business development\n\u201a\u00c4\u00a2 Marketing and sales\n\u201a\u00c4\u00a2 Fundraising\n\n**Resources:**\n\u201a\u00c4\u00a2 Startup incubators (Y Combinator, 91springboard)\n\u201a\u00c4\u00a2 Government schemes\n\u201a\u00c4\u00a2 Angel networks\n\n**Risk Assessment:**\n\u201a\u00c4\u00a2 High risk, high reward\n\u201a\u00c4\u00a2 Ensure financial runway of 12-18 months"

/-- The response template at `main.py` line 381. -/
def remoteTemplate (career : String) : String :=
  "\uf8ff\u00fc\u00e8\u2020 **Remote Work in " ++ career ++ ":**\n\n**Remote-Friendly Aspects:**\n\u201a\u00c4\u00a2 Software development is highly remote-friendly\n\u201a\u00c4\u00a2 Data science roles often allow remote work\n\u201a\u00c4\u00a2 DevOps and cloud roles are remote-friendly\n\n**Tips for Remote Success:**\n\u201a\u00c4\u00a2 Create a dedicated workspace\n\u201a\u00c4\u00a2 Maintain regular hours\n\u201a\u00c4\u00a2 Over-communicate with team\n\u201a\u00c4\u00a2 Use collaboration tools effectively\n\u201a\u00c4\u00a2 Build strong online presence\n\n**Companies Offering Remote:**\n\u201a\u00c4\u00a2 Most tech companies post-pandemic\n\u201a\u00c4\u00a2 Product companies are more flexible\n\u201a\u00c4\u00a2 Check job descriptions for remote policy\n\n**Building Remote Career:**\n\u201a\u00c4\u00a2 Time zone alignment matters\n\u201a\u00c4\u00a2 Strong communication is key\n\u201a\u00c4\u00a2 Self-discipline and motivation essential"

/-- The response template at `main.py` line 386. -/
def generalWithGuidance (career : String) (g : Guidance) : String :=
  "\uf8ff\u00fc\u00a7\u00f1 **" ++ career ++ " Overview:**\n\n" ++ g.description ++ "\n\n**What you\x27ll do:**\n\u201a\u00c4\u00a2 Design and implement solutions\n\u201a\u00c4\u00a2 Collaborate with cross-functional teams\n\u201a\u00c4\u00a2 Stay updated with technology trends\n\u201a\u00c4\u00a2 Solve complex problems\n\n**Best suited for you if:**\n\u201a\u00c4\u00a2 You enjoy problem-solving\n\u201a\u00c4\u00a2 You like continuous learning\n\u201a\u00c4\u00a2 You\x27re detail-oriented\n\u201a\u00c4\u00a2 You work well in teams\n\n**Getting Started:**\n1. Build a strong foundation in basics\n2. Create projects for your portfolio\n3. Network with professionals\n4. Apply for internships\n\nWould you like more specific information about any aspect?"

/-- The response template at `main.py` line 388. -/
def generalWithCareer (career : String) : String :=
  "\uf8ff\u00fc\u00a7\u00f1 **" ++ career ++ " Career Guidance:**\n\nThis is a great career choice for engineering students!\n\n**To succeed in this field:**\n\u201a\u00c4\u00a2 Focus on core technical skills\n\u201a\u00c4\u00a2 Build practical projects\n\u201a\u00c4\u00a2 Stay updated with industry trends\n\u201a\u00c4\u00a2 Network with professionals\n\n**Next Steps:**\n1. Identify specific skills needed\n2. Create a learning roadmap\n3. Start building projects\n4. Apply for relevant positions\n\nWould you like personalized advice based on your profile?"

/-- The response template at `main.py` line 390. -/
def generalGeneric : String :=
  "\uf8ff\u00fc\u00a7\u00f1 **Career Guidance Assistant:**\n\nI\x27d be happy to help with your career questions! You can ask me about:\n\n\u201a\u00c4\u00a2 \uf8ff\u00fc\u00ed\u221e Salary and compensation\n\u201a\u00c4\u00a2 \uf8ff\u00fc\u00e9\u00d8 Skills to learn and develop\n\u201a\u00c4\u00a2 \uf8ff\u00fc\u00ec\u00e0 Career growth and progression\n\u201a\u00c4\u00a2 \uf8ff\u00fc\u00ed\u00ba Job search and interview tips\n\u201a\u00c4\u00a2 \uf8ff\u00fc\u00ec\u00f6 Education and courses\n\u201a\u00c4\u00a2 \uf8ff\u00fc\u00f6\u00c4 Startup and entrepreneurship\n\u201a\u00c4\u00a2 \uf8ff\u00fc\u00e8\u2020 Remote work opportunities\n\n**To provide better guidance:**\n1. Fill in your profile details\n2. Get career recommendations\n3. Ask specific questions\n\nWhat would you like to know more about?"

/-- The `career_guidance` entry for `"software engineer"` (`main.py` lines 259-302). -/
def softwareEngineerGuidance : Guidance :=
  { description := "Software Engineers design, develop, and maintain software systems and applications."
    skills := ["Programming", "Data Structures", "Algorithms", "Version Control", "Testing"]
    career_path := "Junior Dev \u201a\u00dc\u00ed Senior Dev \u201a\u00dc\u00ed Tech Lead \u201a\u00dc\u00ed Engineering Manager \u201a\u00dc\u00ed CTO"
    salary_range := "\u201a\u00c7\u03c03-6L (Junior) to \u201a\u00c7\u03c030L+ (Senior)"
    growth_tips := "Contribute to open source, build projects, learn cloud technologies" }

/-- The `career_guidance` entry for `"data scientist"` (`main.py` lines 259-302). -/
def dataScientistGuidance : Guidance :=
  { description := "Data Scientists analyze complex data to help organizations make better decisions."
    skills := ["Python", "Machine Learning", "Statistics", "SQL", "Data Visualization"]
    career_path := "Junior Data Scientist \u201a\u00dc\u00ed Data Scientist \u201a\u00dc\u00ed Senior Data Scientist \u201a\u00dc\u00ed Lead/Principal \u201a\u00dc\u00ed Chief Data Officer"
    salary_range := "\u201a\u00c7\u03c04-8L (Junior) to \u201a\u00c7\u03c035L+ (Senior)"
    growth_tips := "Kaggle competitions, publish research, learn deep learning" }

/-- The `career_guidance` entry for `"ai engineer"` (`main.py` lines 259-302). -/
def aiEngineerGuidance : Guidance :=
  { description := "AI Engineers develop and implement artificial intelligence solutions."
    skills := ["Python", "TensorFlow/PyTorch", "Machine Learning", "Neural Networks", "MLOps"]
    career_path := "Junior AI Engineer \u201a\u00dc\u00ed AI Engineer \u201a\u00dc\u00ed Senior AI Engineer \u201a\u00dc\u00ed AI Lead \u201a\u00dc\u00ed AI Director"
    salary_range := "\u201a\u00c7\u03c05-10L (Junior) to \u201a\u00c7\u03c040L+ (Senior)"
    growth_tips := "Build ML projects, read research papers, contribute to AI open source" }

/-- The `career_guidance` entry for `"web developer"` (`main.py` lines 259-302). -/
def webDeveloperGuidance : Guidance :=
  { description := "Web Developers create and maintain websites and web applications."
    skills := ["HTML/CSS", "JavaScript", "React/Angular/Vue", "Node.js", "APIs"]
    career_path := "Junior Developer \u201a\u00dc\u00ed Frontend/Backend Developer \u201a\u00dc\u00ed Senior Developer \u201a\u00dc\u00ed Lead \u201a\u00dc\u00ed Architect"
    salary_range := "\u201a\u00c7\u03c03-6L (Junior) to \u201a\u00c7\u03c025L+ (Senior)"
    growth_tips := "Build a strong portfolio, learn modern frameworks, contribute to projects" }

/-- The `career_guidance` entry for `"devops engineer"` (`main.py` lines 259-302). -/
def devopsEngineerGuidance : Guidance :=
  { description := "DevOps Engineers bridge the gap between development and operations."
    skills := ["Linux", "Docker", "Kubernetes", "CI/CD", "Cloud Platforms"]
    career_path := "Jr. DevOps \u201a\u00dc\u00ed DevOps Engineer \u201a\u00dc\u00ed Sr. DevOps \u201a\u00dc\u00ed DevOps Lead \u201a\u00dc\u00ed SRE Manager"
    salary_range := "\u201a\u00c7\u03c04-8L (Junior) to \u201a\u00c7\u03c030L+ (Senior)"
    growth_tips := "Get cloud certifications, automate everything, learn infrastructure as code" }

/-- The `career_guidance` entry for `"cybersecurity"` (`main.py` lines 259-302). -/
def cybersecurityGuidance : Guidance :=
  { description := "Security Engineers protect systems and data from cyber threats."
    skills := ["Network Security", "Penetration Testing", "Security Tools", "Compliance", "Incident Response"]
    career_path := "Security Analyst \u201a\u00dc\u00ed Security Engineer \u201a\u00dc\u00ed Senior Security \u201a\u00dc\u00ed Security Lead \u201a\u00dc\u00ed CISO"
    salary_range := "\u201a\u00c7\u03c04-8L (Junior) to \u201a\u00c7\u03c035L+ (Senior)"
    growth_tips := "Get certifications (CISSP, CEH), participate in bug bounties, stay updated" }

/-- The `career_guidance` table (`main.py` lines 259-302), in insertion order. -/
def careerGuidance : List (String × Guidance) :=
  [("software engineer", softwareEngineerGuidance),
   ("data scientist", dataScientistGuidance),
   ("ai engineer", aiEngineerGuidance),
   ("web developer", webDeveloperGuidance),
   ("devops engineer", devopsEngineerGuidance),
   ("cybersecurity", cybersecurityGuidance)]

/-- The `salary` keyword list of the fallback classifier (`main.py` lines 313-315). -/
def salaryKeywords : List String :=
  ["salary", "package", "money", "earn", "compensation", "ctc"]

/-- The `skills` keyword list of the fallback classifier (`main.py` lines 316-318). -/
def skillsKeywords : List String :=
  ["skill", "learn", "technology", "tech", "language", "framework", "missing"]

/-- The `growth` keyword list of the fallback classifier (`main.py` lines 319-321). -/
def growthKeywords : List String :=
  ["growth", "future", "career path", "promotion", "advance", "progress"]

/-- The `job` keyword list of the fallback classifier (`main.py` lines 322-324). -/
def jobKeywords : List String :=
  ["job", "interview", "resume", "hiring", "placement", "hunt"]

/-- The `education` keyword list of the fallback classifier (`main.py` lines 325-327). -/
def educationKeywords : List String :=
  ["course", "degree", "study", "college", "university", "masters"]

/-- The `startup` keyword list of the fallback classifier (`main.py` lines 328-330). -/
def startupKeywords : List String :=
  ["startup", "entrepreneurship", "own business", "founder"]

/-- The `remote` keyword list of the fallback classifier (`main.py` lines 331-333). -/
def remoteKeywords : List String :=
  ["remote", "work from home", "wfh", "flexible"]

/-- The `keywords` dict of the fallback classifier (`main.py` lines 312-334), in insertion order. -/
def keywordTable : List (String × List String) :=
  [("salary", salaryKeywords),
   ("skills", skillsKeywords),
   ("growth", growthKeywords),
   ("job", jobKeywords),
   ("education", educationKeywords),
   ("startup", startupKeywords),
   ("remote", remoteKeywords)]

/-- Some keyword of `ws` occurs as a contiguous substring of `q`: the
declarative counterpart of scanning a keyword list with `strContains`. -/
def kwMatches (ws : List String) (q : String) : Prop :=
  ∃ w ∈ ws, w.data <:+: q.data

instance (ws : List String) (q : String) : Decidable (kwMatches ws q) := by
  unfold kwMatches
  infer_instance

/-- The `career_guidance` lookup of `get_rule_based_response` (`main.py`
lines 305-309): first table entry, in insertion order, whose key contains
the lower-cased career name or is contained in it. -/
def findGuidance (career_lower : String) : Option Guidance :=
  (careerGuidance.find? (fun p =>
    strContains career_lower p.1 || strContains p.1 career_lower)).map Prod.snd

/-- The question classifier of `get_rule_based_response` (`main.py`
lines 336-348): the first category, in table order, one of whose keywords
occurs as a substring of the (already lower-cased) question; `"general"`
when none matches. -/
def detectCategory (question : String) : String :=
  match keywordTable.find? (fun p => p.2.any (fun w => strContains question w)) with
  | some p => p.1
  | none => "general"

/-- Request body of `POST /career-chat`; every field is read with
`data.get(...)` and so may be absent. -/
structure ChatContext where
  education : Option String := none
  interests : Option (List String) := none
  current_skills : Option (List String) := none
  career : Option String := none
  missing_skills : Option (List String) := none
  question : Option String := none
deriving Repr, DecidableEq

/-- `get_rule_based_response` (`main.py` lines 248-390). The `interests`
field is read at line 253 but never used afterwards. The lower-cased
question is classified into a category; the response is the category's
template, specialized by whether a `career_guidance` entry matched and, for
the skills category, whether `missing_skills` is non-empty. -/
def getRuleBasedResponse (data : ChatContext) : String :=
  let question := strToLower (data.question.getD "")
  let career := data.career.getD ""
  let missing_skills := data.missing_skills.getD []
  let career_lower := if career ≠ "" then strToLower career else ""
  let guidance := findGuidance career_lower
  let category := detectCategory question
  if category = "salary" then
    match guidance with
    | some g => salaryWithGuidance career g
    | none => salaryGeneric career
  else if category = "skills" then
    if missing_skills ≠ [] then
      skillsWithMissing career missing_skills
    else
      match guidance with
      | some g => skillsWithGuidance career g
      | none => skillsGeneric career
  else if category = "growth" then
    match guidance with
    | some g => growthWithGuidance career g
    | none => growthGeneric career
  else if category = "job" then jobTemplate career
  else if category = "education" then educationTemplate career
  else if category = "startup" then startupTemplate career
  else if category = "remote" then remoteTemplate career
  else
    match guidance with
    | some g => generalWithGuidance career g
    | none => if career ≠ "" then generalWithCareer career else generalGeneric

/-- Response body of `POST /career-chat`. -/
structure ChatResponse where
  response : String
deriving Repr, DecidableEq

/-- `career_chat` (`main.py` lines 199-245) on the fallback path: the
external language-model call (an out-of-scope black-box dependency) has
failed or timed out, so the rule-based responder answers. -/
def careerChatFallback (data : ChatContext) : ChatResponse :=
  { response := getRuleBasedResponse data }

/-- The shared in-memory tables loaded once at startup (`main.py` lines
21-23 and the `SKILL_ROADMAPS` import). -/
structure ServerState where
  careers : List CareerRecord
  skill_roadmaps : List (String × RoadmapEntry)
deriving Repr, DecidableEq

/-- `recommend_career` as a state-passing handler: the body only reads
`careers` (lines 30-33) and sorts a request-local list, so the post-state
is the pre-state. -/
def recommendCareerHandler (st : ServerState) (student : Student) :
    RecommendResponse × ServerState :=
  (recommendCareer st.careers student, st)

/-- `quiz_recommend_career` as a state-passing handler: the body only reads
`careers` (line 111), so the post-state is the pre-state. -/
def quizRecommendCareerHandler (st : ServerState) (domain : String)
    (current_skills : List String) : QuizResponse × ServerState :=
  (quizRecommendCareer st.careers domain current_skills, st)

/-- `skill_gap` as a state-passing handler: the body only reads `careers`
(line 158), writing a request-local `result`, so the post-state is the
pre-state. -/
def skillGapHandler (st : ServerState) (target_career : Option String)
    (current_skills : List String) : Option SkillGapResult × ServerState :=
  (skillGap st.careers target_career current_skills, st)

/-- `learning_roadmap` as a state-passing handler: the body only reads
`careers` (line 173) and `SKILL_ROADMAPS` (lines 181-182), writing a
request-local `roadmap`, so the post-state is the pre-state. -/
def learningRoadmapHandler (st : ServerState) (target_career : Option String)
    (current_skills : List String) : RoadmapResult × ServerState :=
  (learningRoadmapIn st.skill_roadmaps st.careers target_career current_skills, st)

/-- `career_chat` as a state-passing handler: the body touches neither
table, so the post-state is the pre-state. -/
def careerChatHandler (st : ServerState) (data : ChatContext) :
    ChatResponse × ServerState :=
  (careerChatFallback data, st)


/-! ### Sample data for concrete witnesses -/

/-- A sample catalog record (the scenario record of the spec, §8). -/
def seRec : CareerRecord :=
  { career := "Software Engineer", interests := ["Programming", "Data"],
    required_skills := ["Python", "Git"], difficulty := "Medium" }

/-- A second sample catalog record. -/
def dsRec : CareerRecord :=
  { career := "Data Scientist", interests := ["Data", "AI"],
    required_skills := ["Python", "Statistics"], difficulty := "Hard" }

/-- A record named `"Dup"`, first of a duplicate-name pair. -/
def dupRecA : CareerRecord :=
  { career := "Dup", interests := ["X1"], required_skills := ["SkillA"],
    difficulty := "Easy" }

/-- A record named `"Dup"`, second of a duplicate-name pair, with different
required skills. -/
def dupRecB : CareerRecord :=
  { career := "Dup", interests := ["X2"], required_skills := ["SkillB"],
    difficulty := "Hard" }

/-- A sample direct-profile query (the scenario query of the spec, §8). -/
def sampleStudent : Student :=
  { name := "A", interests := ["Programming"], current_skills := ["Python"] }

/-- A sample two-record catalog. -/
def sampleCatalog : List CareerRecord := [seRec, dsRec]

/-- The roadmap payload for `seRec` with no current skills: `"Python"` is in
`SKILL_ROADMAPS`, `"Git"` is not. -/
def seRoadmapOk : RoadmapOk :=
  { career := "Software Engineer"
    missing_skills := ["Python", "Git"]
    learning_roadmap := [("Python", roadmapFor "Python"), ("Git", roadmapFor "Git")] }

/-- A chat context with an empty career and a question matching no keyword. -/
def emptyCareerChat : ChatContext :=
  { career := some "", question := some "hello" }


/-! ### Helper lemmas -/

theorem append_ne_empty_left {a : String} (b : String) (h : a ≠ "") : a ++ b ≠ "" := by
  intro heq
  apply h
  have hd := congrArg String.data heq
  rw [String.data_append] at hd
  rcases List.append_eq_nil.mp hd with ⟨ha, -⟩
  exact String.ext ha

theorem charsBeginWith_iff (n h : List Char) : charsBeginWith n h = true ↔ n <+: h := by
  induction n generalizing h with
  | nil => simp [charsBeginWith]
  | cons a as ih =>
      cases h with
      | nil => simp [charsBeginWith]
      | cons b bs => simp [charsBeginWith, ih, List.cons_prefix_cons]

theorem charsContain_iff (n h : List Char) : charsContain n h = true ↔ n <:+: h := by
  induction h with
  | nil => simp [charsContain, List.isEmpty_iff]
  | cons b bs ih =>
      simp [charsContain, ih, charsBeginWith_iff, List.infix_cons_iff]

theorem strContains_iff (hay needle : String) :
    strContains hay needle = true ↔ needle.data <:+: hay.data := by
  simp [strContains, charsContain_iff]

theorem mem_setDiff (required current : List String) (x : String) :
    x ∈ setDiff required current ↔ x ∈ required ∧ x ∉ current := by
  simp [setDiff, List.mem_dedup, List.mem_filter, List.elem_iff, List.contains]

theorem nodup_setDiff (required current : List String) : (setDiff required current).Nodup :=
  List.nodup_dedup _

theorem mem_sortedInsertDesc {α : Type} (key : α → Nat) (r a : α) (l : List α) :
    a ∈ sortedInsertDesc key r l ↔ a = r ∨ a ∈ l := by
  induction l with
  | nil => simp [sortedInsertDesc]
  | cons x xs ih =>
      simp only [sortedInsertDesc]
      split
      · simp [List.mem_cons]
      · simp only [List.mem_cons, ih]
        tauto

theorem pairwise_sortedInsertDesc {α : Type} (key : α → Nat) (r : α) (l : List α)
    (h : l.Pairwise (fun a b => key b ≤ key a)) :
    (sortedInsertDesc key r l).Pairwise (fun a b => key b ≤ key a) := by
  induction l with
  | nil => simp [sortedInsertDesc]
  | cons x xs ih =>
      rw [List.pairwise_cons] at h
      obtain ⟨hx, hxs⟩ := h
      simp only [sortedInsertDesc]
      split
      · rename_i hlt
        refine List.Pairwise.cons ?_ (List.Pairwise.cons hx hxs)
        intro b hb
        rcases List.mem_cons.mp hb with rfl | hb'
        · exact Nat.le_of_lt hlt
        · exact le_trans (hx b hb') (Nat.le_of_lt hlt)
      · rename_i hge
        refine List.Pairwise.cons ?_ (ih hxs)
        intro b hb
        rcases (mem_sortedInsertDesc key r b xs).mp hb with rfl | hb'
        · exact Nat.le_of_not_lt hge
        · exact hx b hb'

theorem filter_sortedInsertDesc {α : Type} (key : α → Nat) (s : Nat) (r : α) (l : List α)
    (h : l.Pairwise (fun a b => key b ≤ key a)) :
    (sortedInsertDesc key r l).filter (fun a => key a == s) =
      if key r = s then (l.filter (fun a => key a == s)) ++ [r]
      else l.filter (fun a => key a == s) := by
  induction l with
  | nil =>
      simp only [sortedInsertDesc, List.filter_cons, List.filter_nil]
      by_cases hrs : key r = s <;> simp [hrs]
  | cons x xs ih =>
      rw [List.pairwise_cons] at h
      obtain ⟨hx, hxs⟩ := h
      simp only [sortedInsertDesc]
      split
      · rename_i hlt
        by_cases hrs : key r = s
        · have hnil : (x :: xs).filter (fun a => key a == s) = [] := by
            rw [List.filter_eq_nil_iff]
            intro a ha
            have hle : key a ≤ key x := by
              rcases List.mem_cons.mp ha with rfl | ha'
              · exact le_refl _
              · exact hx a ha'
            have hlt' : key a < s := lt_of_le_of_lt hle (hrs ▸ hlt)
            simp [Nat.ne_of_lt hlt']
          rw [List.filter_cons]
          simp [hrs, hnil]
        · rw [List.filter_cons]
          simp [hrs]
      · rename_i hge
        rw [List.filter_cons, List.filter_cons, ih hxs]
        by_cases hxs' : key x = s <;> by_cases hrs : key r = s <;> simp [hxs', hrs]

theorem mem_foldl_sortedInsertDesc {α : Type} (key : α → Nat) (a : α) (l : List α) :
    ∀ acc : List α,
      (a ∈ l.foldl (fun acc r => sortedInsertDesc key r acc) acc ↔ a ∈ acc ∨ a ∈ l) := by
  induction l with
  | nil => intro acc; simp
  | cons x xs ih =>
      intro acc
      rw [List.foldl_cons, ih, mem_sortedInsertDesc]
      simp only [List.mem_cons]
      tauto

theorem pairwise_foldl_sortedInsertDesc {α : Type} (key : α → Nat) (l : List α) :
    ∀ acc : List α, acc.Pairwise (fun a b => key b ≤ key a) →
      (l.foldl (fun acc r => sortedInsertDesc key r acc) acc).Pairwise
        (fun a b => key b ≤ key a) := by
  induction l with
  | nil => intro acc h; simpa using h
  | cons x xs ih =>
      intro acc h
      rw [List.foldl_cons]
      exact ih _ (pairwise_sortedInsertDesc key x acc h)

theorem filter_foldl_sortedInsertDesc {α : Type} (key : α → Nat) (s : Nat) (l : List α) :
    ∀ acc : List α, acc.Pairwise (fun a b => key b ≤ key a) →
      (l.foldl (fun acc r => sortedInsertDesc key r acc) acc).filter (fun a => key a == s) =
        acc.filter (fun a => key a == s) ++ l.filter (fun a => key a == s) := by
  induction l with
  | nil => intro acc h; simp
  | cons x xs ih =>
      intro acc h
      rw [List.foldl_cons, ih _ (pairwise_sortedInsertDesc key x acc h),
        filter_sortedInsertDesc key s x acc h, List.filter_cons]
      by_cases hxs : key x = s <;> simp [hxs]

theorem mem_stableSortDesc {α : Type} (key : α → Nat) (a : α) (l : List α) :
    a ∈ stableSortDesc key l ↔ a ∈ l := by
  rw [stableSortDesc, mem_foldl_sortedInsertDesc]
  simp

theorem pairwise_stableSortDesc {α : Type} (key : α → Nat) (l : List α) :
    (stableSortDesc key l).Pairwise (fun a b => key b ≤ key a) :=
  pairwise_foldl_sortedInsertDesc key l [] (by simp)

theorem filter_stableSortDesc {α : Type} (key : α → Nat) (s : Nat) (l : List α) :
    (stableSortDesc key l).filter (fun a => key a == s) = l.filter (fun a => key a == s) := by
  rw [stableSortDesc, filter_foldl_sortedInsertDesc key s l [] (by simp)]
  simp


theorem mem_recommendPool_score {cat : List CareerRecord} {student : Student}
    {r : Recommendation} (h : r ∈ recommendPool cat student) :
    1 ≤ r.interest_match_score := by
  simp only [recommendPool, List.mem_filterMap] at h
  obtain ⟨c, -, hf⟩ := h
  by_cases hs : 0 < interestMatchScore student.interests c.interests
  · simp only [hs, if_pos] at hf
    cases hf
    exact hs
  · simp [hs] at hf

theorem mem_quizPool_score {cat : List CareerRecord} {domain : String}
    {skills : List String} {r : QuizRecommendation} (h : r ∈ quizPool cat domain skills) :
    1 ≤ r.interest_match_score := by
  simp only [quizPool, List.mem_filterMap] at h
  obtain ⟨c, -, hf⟩ := h
  by_cases hs : 0 < interestMatchScore c.interests (relevantInterests domain)
  · simp only [hs, if_pos] at hf
    cases hf
    exact hs
  · simp [hs] at hf

theorem mem_recommendPool_missing {cat : List CareerRecord} {student : Student}
    {r : Recommendation} (h : r ∈ recommendPool cat student) :
    r.missing_skills = setDiff r.required_skills student.current_skills := by
  simp only [recommendPool, List.mem_filterMap] at h
  obtain ⟨c, -, hf⟩ := h
  by_cases hs : 0 < interestMatchScore student.interests c.interests
  · simp only [hs, if_pos] at hf
    cases hf
    rfl
  · simp [hs] at hf

theorem mem_quizPool_missing {cat : List CareerRecord} {domain : String}
    {skills : List String} {r : QuizRecommendation} (h : r ∈ quizPool cat domain skills) :
    r.missing_skills = setDiff r.required_skills skills := by
  simp only [quizPool, List.mem_filterMap] at h
  obtain ⟨c, -, hf⟩ := h
  by_cases hs : 0 < interestMatchScore c.interests (relevantInterests domain)
  · simp only [hs, if_pos] at hf
    cases hf
    rfl
  · simp [hs] at hf

theorem skillGap_foldl_char (target : Option String) (current : List String)
    (cat : List CareerRecord) :
    ∀ init : Option SkillGapResult,
      cat.foldl (fun result career =>
        if some career.career = target then
          some { career := career.career
                 missing_skills := setDiff career.required_skills current }
        else result) init =
      match (cat.filter (fun c => some c.career == target)).getLast? with
      | some c => some { career := c.career
                         missing_skills := setDiff c.required_skills current }
      | none => init := by
  induction cat with
  | nil => intro init; simp
  | cons c cs ih =>
      intro init
      rw [List.foldl_cons, ih, List.filter_cons]
      by_cases hc : some c.career = target
      · simp only [hc, if_pos, beq_iff_eq, ite_true, List.getLast?_cons]
        cases hlast : (cs.filter (fun c => some c.career == target)).getLast? with
        | none => simp [hlast]
        | some c' => simp [hlast]
      · have hbeq : (some c.career == target) = false := by
          simp [hc]
        simp [hc, hbeq]

theorem skillGap_char (cat : List CareerRecord) (target : Option String)
    (current : List String) :
    skillGap cat target current =
      match (cat.filter (fun c => some c.career == target)).getLast? with
      | some c => some { career := c.career
                         missing_skills := setDiff c.required_skills current }
      | none => none :=
  skillGap_foldl_char target current cat none

theorem lookup_map_self {β : Type} (f : String → β) (s : String) (l : List String)
    (h : s ∈ l) : (l.map (fun x => (x, f x))).lookup s = some (f s) := by
  induction l with
  | nil => cases h
  | cons a t ih =>
      rcases List.mem_cons.mp h with rfl | ht
      · simp [List.lookup_cons]
      · by_cases hsa : s = a
        · subst hsa; simp [List.lookup_cons]
        · have : (s == a) = false := by simp [hsa]
          simp [List.lookup_cons, this, ih ht]

theorem lookup_eq_none_of_not_mem_keys {β : Type} (l : List (String × β)) (s : String)
    (h : s ∉ l.map Prod.fst) : l.lookup s = none := by
  induction l with
  | nil => rfl
  | cons p t ih =>
      simp only [List.map_cons, List.mem_cons] at h
      push_neg at h
      obtain ⟨h1, h2⟩ := h
      cases p with
      | mk k v =>
          have : (s == k) = false := by simpa using h1
          simp [List.lookup_cons, this, ih h2]

theorem detectCategory_eq (q : String) :
    detectCategory q =
      if salaryKeywords.any (fun w => strContains q w) then "salary"
      else if skillsKeywords.any (fun w => strContains q w) then "skills"
      else if growthKeywords.any (fun w => strContains q w) then "growth"
      else if jobKeywords.any (fun w => strContains q w) then "job"
      else if educationKeywords.any (fun w => strContains q w) then "education"
      else if startupKeywords.any (fun w => strContains q w) then "startup"
      else if remoteKeywords.any (fun w => strContains q w) then "remote"
      else "general" := by
  simp only [detectCategory, keywordTable]
  cases h0 : salaryKeywords.any (fun w => strContains q w) <;>
  cases h1 : skillsKeywords.any (fun w => strContains q w) <;>
  cases h2 : growthKeywords.any (fun w => strContains q w) <;>
  cases h3 : jobKeywords.any (fun w => strContains q w) <;>
  cases h4 : educationKeywords.any (fun w => strContains q w) <;>
  cases h5 : startupKeywords.any (fun w => strContains q w) <;>
  cases h6 : remoteKeywords.any (fun w => strContains q w) <;>
    simp [List.find?, h0, h1, h2, h3, h4, h5, h6]

theorem kwMatches_iff (ws : List String) (q : String) :
    (ws.any (fun w => strContains q w) = true) ↔ kwMatches ws q := by
  simp [kwMatches, List.any_eq_true, strContains_iff]


/-! ### Claim theorems -/

/-- **C1.** For every query — direct-profile or quiz mode — the returned
`recommended_careers` contains only entries with `interest_match_score ≥ 1`,
is sorted non-increasing by `interest_match_score`, is the stable descending
sort of the pool built in catalog order truncated to the top 3 (direct
profile) or top 5 (quiz domain), and ties retain catalog order: for each
score value, the entries of the sorted pool with that score are exactly the
pool entries with that score, in pool (catalog) order. -/
theorem recommendations_sorted_filtered_truncated
    (cat : List CareerRecord) (student : Student) (domain : String) (skills : List String) :
    (∀ r ∈ (recommendCareer cat student).recommended_careers, 1 ≤ r.interest_match_score) ∧
    (recommendCareer cat student).recommended_careers.Pairwise
      (fun a b => b.interest_match_score ≤ a.interest_match_score) ∧
    (recommendCareer cat student).recommended_careers.length ≤ 3 ∧
    (recommendCareer cat student).recommended_careers =
      (stableSortDesc Recommendation.interest_match_score (recommendPool cat student)).take 3 ∧
    (∀ s : Nat,
      (stableSortDesc Recommendation.interest_match_score (recommendPool cat student)).filter
          (fun r => r.interest_match_score == s) =
        (recommendPool cat student).filter (fun r => r.interest_match_score == s)) ∧
    (∀ r ∈ (quizRecommendCareer cat domain skills).recommended_careers,
      1 ≤ r.interest_match_score) ∧
    (quizRecommendCareer cat domain skills).recommended_careers.Pairwise
      (fun a b => b.interest_match_score ≤ a.interest_match_score) ∧
    (quizRecommendCareer cat domain skills).recommended_careers.length ≤ 5 ∧
    (quizRecommendCareer cat domain skills).recommended_careers =
      (stableSortDesc QuizRecommendation.interest_match_score
        (quizPool cat domain skills)).take 5 ∧
    (∀ s : Nat,
      (stableSortDesc QuizRecommendation.interest_match_score
          (quizPool cat domain skills)).filter
          (fun r => r.interest_match_score == s) =
        (quizPool cat domain skills).filter (fun r => r.interest_match_score == s)) := by
  refine ⟨?_, ?_, ?_, rfl, ?_, ?_, ?_, ?_, rfl, ?_⟩
  · intro r hr
    exact mem_recommendPool_score
      ((mem_stableSortDesc _ r _).mp (List.mem_of_mem_take hr))
  · exact List.Pairwise.sublist (List.take_sublist _ _) (pairwise_stableSortDesc _ _)
  · simp [recommendCareer, List.length_take]
  · intro s
    exact filter_stableSortDesc _ s _
  · intro r hr
    exact mem_quizPool_score
      ((mem_stableSortDesc _ r _).mp (List.mem_of_mem_take hr))
  · exact List.Pairwise.sublist (List.take_sublist _ _) (pairwise_stableSortDesc _ _)
  · simp [quizRecommendCareer, List.length_take]
  · intro s
    exact filter_stableSortDesc _ s _

/-- **C2.** Every recommendation emitted by a matching query (direct-profile
or quiz mode) has `missing_skills` equal, as a set of strings, to the
record's `required_skills` minus the student's `current_skills`: no
extraneous elements and none omitted, order-independent. -/
theorem missing_skills_exact
    (cat : List CareerRecord) (student : Student) (domain : String) (skills : List String) :
    (∀ r ∈ (recommendCareer cat student).recommended_careers, ∀ x : String,
       x ∈ r.missing_skills ↔ x ∈ r.required_skills ∧ x ∉ student.current_skills) ∧
    (∀ r ∈ (quizRecommendCareer cat domain skills).recommended_careers, ∀ x : String,
       x ∈ r.missing_skills ↔ x ∈ r.required_skills ∧ x ∉ skills) := by
  constructor
  · intro r hr x
    have hp : r ∈ recommendPool cat student :=
      (mem_stableSortDesc _ r _).mp (List.mem_of_mem_take hr)
    rw [mem_recommendPool_missing hp, mem_setDiff]
  · intro r hr x
    have hp : r ∈ quizPool cat domain skills :=
      (mem_stableSortDesc _ r _).mp (List.mem_of_mem_take hr)
    rw [mem_quizPool_missing hp, mem_setDiff]

/-- **C3 (counterexample).** The quiz response for the unknown domain code
`"X"` is not identical to the response for domain `"T"` (here on the empty
catalog with no current skills): `domain` echoes the unknown code and
`domain_name` is `"General"` rather than `"Technical"`. -/
theorem quiz_unknown_domain_response_differs :
    quizRecommendCareer [] "X" [] ≠ quizRecommendCareer [] "T" [] := by
  decide

/-- **C3 (amended).** For every domain code not in {T, C, B, S, R}, every
catalog and every current-skill set, the interest keyword set defaults to the
Technical set, so `recommended_careers` is identical to a call with domain
`"T"`; but the responses are not the same object: `domain` echoes the unknown
code and `domain_name` is `"General"` rather than `"Technical"`. -/
theorem quiz_unknown_domain_defaults_to_technical
    (cat : List CareerRecord) (skills : List String) (domain : String)
    (h : domain ∉ ["T", "C", "B", "S", "R"]) :
    relevantInterests domain = technicalInterests ∧
    (quizRecommendCareer cat domain skills).recommended_careers =
      (quizRecommendCareer cat "T" skills).recommended_careers ∧
    (quizRecommendCareer cat domain skills).domain = domain ∧
    (quizRecommendCareer cat domain skills).domain_name = "General" := by
  simp only [List.mem_cons, List.not_mem_nil, or_false, not_or] at h
  obtain ⟨hT, hC, hB, hS, hR⟩ := h
  have bT : (domain == "T") = false := beq_eq_false_iff_ne.mpr hT
  have bC : (domain == "C") = false := beq_eq_false_iff_ne.mpr hC
  have bB : (domain == "B") = false := beq_eq_false_iff_ne.mpr hB
  have bS : (domain == "S") = false := beq_eq_false_iff_ne.mpr hS
  have bR : (domain == "R") = false := beq_eq_false_iff_ne.mpr hR
  have hrel : relevantInterests domain = technicalInterests := by
    simp [relevantInterests, domainInterests, List.lookup_cons, bT, bC, bB, bS, bR]
  have hrelT : relevantInterests "T" = technicalInterests := rfl
  have hpool : quizPool cat domain skills = quizPool cat "T" skills := by
    simp only [quizPool, hrel, hrelT]
  refine ⟨hrel, ?_, rfl, ?_⟩
  · simp only [quizRecommendCareer, hpool]
  · simp [quizRecommendCareer, domainNames, List.lookup_cons, bT, bC, bB, bS, bR]

/-- **C3 (witness).** The amended claim at the unknown domain code `"X"` on
the sample catalog. -/
theorem quiz_unknown_domain_defaults_to_technical_witness :
    ("X" : String) ∉ ["T", "C", "B", "S", "R"] ∧
    (relevantInterests "X" = technicalInterests ∧
     (quizRecommendCareer sampleCatalog "X" []).recommended_careers =
       (quizRecommendCareer sampleCatalog "T" []).recommended_careers ∧
     (quizRecommendCareer sampleCatalog "X" []).domain = "X" ∧
     (quizRecommendCareer sampleCatalog "X" []).domain_name = "General") :=
  ⟨by decide, quiz_unknown_domain_defaults_to_technical sampleCatalog [] "X" (by decide)⟩

/-- **C4.** A target career matches no catalog record exactly when skill-gap
returns the empty dict (embedded as `none`), and exactly when
learning-roadmap returns the error payload `{"error": "Career not found"}`:
these are the only not-found outcomes of the two operations. -/
theorem not_found_outcomes
    (cat : List CareerRecord) (target : Option String) (current : List String) :
    (skillGap cat target current = none ↔ ∀ c ∈ cat, some c.career ≠ target) ∧
    (learningRoadmap cat target current = .error "Career not found" ↔
      ∀ c ∈ cat, some c.career ≠ target) := by
  have hfilter : (cat.filter (fun c => some c.career == target) = []) ↔
      ∀ c ∈ cat, some c.career ≠ target := by
    rw [List.filter_eq_nil_iff]
    simp
  constructor
  · rw [skillGap_char]
    cases hlast : (cat.filter (fun c => some c.career == target)).getLast? with
    | some c =>
        simp only [hlast]
        constructor
        · intro h; cases h
        · intro hall
          exfalso
          have hc := List.mem_of_mem_getLast? hlast
          rw [List.mem_filter] at hc
          exact hall c hc.1 (by simpa using hc.2)
    | none =>
        simp only [hlast]
        rw [List.getLast?_eq_none_iff] at hlast
        simp only [hfilter] at hlast
        exact ⟨fun _ => hlast, fun _ => trivial⟩
  · unfold learningRoadmap learningRoadmapIn
    cases hfind : cat.find? (fun career => some career.career == target) with
    | some c =>
        simp only [hfind]
        constructor
        · intro h; cases h
        · intro hall
          exfalso
          have hp := List.find?_some hfind
          exact hall c (List.mem_of_find?_eq_some hfind) (by simpa using hp)
    | none =>
        simp only [hfind]
        rw [List.find?_eq_none] at hfind
        constructor
        · intro _
          intro c hc
          have := hfind c hc
          simpa using this
        · intro _
          trivial

/-- **C5.** When the catalog contains records named `target_career`
(duplicates included), skill-gap scans the whole catalog with overwrite
semantics and returns the career name and required-minus-current skills of
the LAST matching record. -/
theorem skill_gap_last_match_wins
    (cat : List CareerRecord) (target : Option String) (current : List String)
    (c : CareerRecord)
    (h : (cat.filter (fun c => some c.career == target)).getLast? = some c) :
    skillGap cat target current =
      some { career := c.career, missing_skills := setDiff c.required_skills current } := by
  rw [skillGap_char, h]

/-- **C5 (witness).** On a catalog with two records both named `"Dup"`, the
last one's data is returned. -/
theorem skill_gap_last_match_wins_witness :
    (([dupRecA, dupRecB].filter (fun c => some c.career == some "Dup")).getLast? =
      some dupRecB) ∧
    skillGap [dupRecA, dupRecB] (some "Dup") [] =
      some { career := dupRecB.career
             missing_skills := setDiff dupRecB.required_skills [] } :=
  ⟨by decide,
   skill_gap_last_match_wins [dupRecA, dupRecB] (some "Dup") [] dupRecB (by decide)⟩

/-- **C6.** For every target career present in the catalog (the successful
case of learning-roadmap), the roadmap mapping's keys are exactly the
`missing_skills` list — no more, no fewer, no duplicates — and every missing
skill absent from the `SKILL_ROADMAPS` table gets the synthesized entry with
exactly one beginner, one intermediate and one advanced item, each of which
contains the skill name (templates `"Learn basics of X"`, `"Practice X"`,
`"Build projects using X"`). -/
theorem roadmap_keys_and_fallback
    (cat : List CareerRecord) (target : Option String) (current : List String)
    (res : RoadmapOk) (h : learningRoadmap cat target current = .ok res) :
    res.learning_roadmap.map Prod.fst = res.missing_skills ∧
    res.missing_skills.Nodup ∧
    ∀ skill ∈ res.missing_skills, skill ∉ SKILL_ROADMAPS.map Prod.fst →
      res.learning_roadmap.lookup skill =
        some { beginner := ["Learn basics of " ++ skill]
               intermediate := ["Practice " ++ skill]
               advanced := ["Build projects using " ++ skill] } ∧
      ∀ e : RoadmapEntry, res.learning_roadmap.lookup skill = some e →
        e.beginner.length = 1 ∧ e.intermediate.length = 1 ∧ e.advanced.length = 1 ∧
        ∀ item ∈ e.beginner ++ e.intermediate ++ e.advanced,
          ∃ s t : String, item = s ++ skill ++ t := by
  unfold learningRoadmap learningRoadmapIn at h
  cases hfind : cat.find? (fun career => some career.career == target) with
  | none => rw [hfind] at h; cases h
  | some c =>
      rw [hfind] at h
      cases h
      refine ⟨?_, nodup_setDiff _ _, ?_⟩
      · have hcomp : (Prod.fst ∘ fun skill : String =>
            (skill, roadmapForIn SKILL_ROADMAPS skill)) = id := rfl
        rw [List.map_map, hcomp, List.map_id]
      · intro skill hmem hnotin
        have hlk := lookup_map_self (roadmapForIn SKILL_ROADMAPS) skill _ hmem
        have hrf : roadmapForIn SKILL_ROADMAPS skill = fallbackRoadmapEntry skill := by
          unfold roadmapForIn
          rw [lookup_eq_none_of_not_mem_keys _ _ hnotin]
        constructor
        · rw [hlk, hrf]
          rfl
        · intro e he
          rw [hlk] at he
          cases he
          rw [hrf]
          refine ⟨rfl, rfl, rfl, ?_⟩
          intro item hitem
          simp only [fallbackRoadmapEntry, List.cons_append, List.nil_append,
            List.mem_cons, List.not_mem_nil, or_false] at hitem
          rcases hitem with h1 | h2 | h3
          · exact ⟨"Learn basics of ", "", by rw [String.append_empty]; exact h1⟩
          · exact ⟨"Practice ", "", by rw [String.append_empty]; exact h2⟩
          · exact ⟨"Build projects using ", "", by rw [String.append_empty]; exact h3⟩

/-- **C6 (witness).** The sample record requires `["Python", "Git"]`: with no
current skills the roadmap keys are exactly `["Python", "Git"]`. -/
theorem roadmap_keys_and_fallback_witness :
    learningRoadmap [seRec] (some "Software Engineer") [] = .ok seRoadmapOk ∧
    seRoadmapOk.learning_roadmap.map Prod.fst = seRoadmapOk.missing_skills :=
  ⟨by decide,
   (roadmap_keys_and_fallback [seRec] (some "Software Engineer") [] seRoadmapOk
     (by decide)).1⟩

/-- **C7.** For every `ChatContext` input — including ones with an empty
question, empty career, or absent fields — the rule-based fallback responder
returns a non-empty string, and so does the chat endpoint's fallback path;
totality of the embedding reflects that no branch raises. -/
theorem chat_response_nonempty (data : ChatContext) :
    getRuleBasedResponse data ≠ "" ∧ (careerChatFallback data).response ≠ "" := by
  have h : getRuleBasedResponse data ≠ "" := by
    simp only [getRuleBasedResponse]
    repeat' split
    all_goals simp only [salaryWithGuidance, salaryGeneric, skillsWithMissing,
      skillsWithGuidance, skillsGeneric, growthWithGuidance, growthGeneric,
      jobTemplate, educationTemplate, startupTemplate, remoteTemplate,
      generalWithGuidance, generalWithCareer, generalGeneric]
    all_goals repeat' apply append_ne_empty_left
    all_goals decide
  exact ⟨h, h⟩

theorem ite_cond_congr {c1 c2 : Prop} [Decidable c1] [Decidable c2] {α : Sort _}
    (h : c1 ↔ c2) (a b : α) : (if c1 then a else b) = (if c2 then a else b) := by
  by_cases hc : c1
  · rw [if_pos hc, if_pos (h.mp hc)]
  · rw [if_neg hc, if_neg (fun hh => hc (h.mpr hh))]

theorem detectCategory_eq_prop (q : String) :
    detectCategory q =
      if kwMatches salaryKeywords q then "salary"
      else if kwMatches skillsKeywords q then "skills"
      else if kwMatches growthKeywords q then "growth"
      else if kwMatches jobKeywords q then "job"
      else if kwMatches educationKeywords q then "education"
      else if kwMatches startupKeywords q then "startup"
      else if kwMatches remoteKeywords q then "remote"
      else "general" := by
  rw [detectCategory_eq,
    ite_cond_congr (kwMatches_iff salaryKeywords q),
    ite_cond_congr (kwMatches_iff skillsKeywords q),
    ite_cond_congr (kwMatches_iff growthKeywords q),
    ite_cond_congr (kwMatches_iff jobKeywords q),
    ite_cond_congr (kwMatches_iff educationKeywords q),
    ite_cond_congr (kwMatches_iff startupKeywords q),
    ite_cond_congr (kwMatches_iff remoteKeywords q)]

/-- **C8.** The fallback classifier assigns exactly one of the seven
categories {salary, skills, growth, job, education, startup, remote} or
`"general"`, by checking, in that fixed enumeration order, whether any
keyword of the category's fixed list occurs as a substring of the
lower-cased question; the first matching category wins, and `"general"` is
assigned exactly when no keyword of any category matches. -/
theorem chat_category_first_match (question : String) :
    detectCategory (strToLower question) ∈
      ["salary", "skills", "growth", "job", "education", "startup", "remote", "general"] ∧
    (detectCategory (strToLower question) = "salary" ↔
      kwMatches salaryKeywords (strToLower question)) ∧
    (detectCategory (strToLower question) = "skills" ↔
      ¬ kwMatches salaryKeywords (strToLower question) ∧
      kwMatches skillsKeywords (strToLower question)) ∧
    (detectCategory (strToLower question) = "growth" ↔
      ¬ kwMatches salaryKeywords (strToLower question) ∧
      ¬ kwMatches skillsKeywords (strToLower question) ∧
      kwMatches growthKeywords (strToLower question)) ∧
    (detectCategory (strToLower question) = "job" ↔
      ¬ kwMatches salaryKeywords (strToLower question) ∧
      ¬ kwMatches skillsKeywords (strToLower question) ∧
      ¬ kwMatches growthKeywords (strToLower question) ∧
      kwMatches jobKeywords (strToLower question)) ∧
    (detectCategory (strToLower question) = "education" ↔
      ¬ kwMatches salaryKeywords (strToLower question) ∧
      ¬ kwMatches skillsKeywords (strToLower question) ∧
      ¬ kwMatches growthKeywords (strToLower question) ∧
      ¬ kwMatches jobKeywords (strToLower question) ∧
      kwMatches educationKeywords (strToLower question)) ∧
    (detectCategory (strToLower question) = "startup" ↔
      ¬ kwMatches salaryKeywords (strToLower question) ∧
      ¬ kwMatches skillsKeywords (strToLower question) ∧
      ¬ kwMatches growthKeywords (strToLower question) ∧
      ¬ kwMatches jobKeywords (strToLower question) ∧
      ¬ kwMatches educationKeywords (strToLower question) ∧
      kwMatches startupKeywords (strToLower question)) ∧
    (detectCategory (strToLower question) = "remote" ↔
      ¬ kwMatches salaryKeywords (strToLower question) ∧
      ¬ kwMatches skillsKeywords (strToLower question) ∧
      ¬ kwMatches growthKeywords (strToLower question) ∧
      ¬ kwMatches jobKeywords (strToLower question) ∧
      ¬ kwMatches educationKeywords (strToLower question) ∧
      ¬ kwMatches startupKeywords (strToLower question) ∧
      kwMatches remoteKeywords (strToLower question)) ∧
    (detectCategory (strToLower question) = "general" ↔
      ¬ kwMatches salaryKeywords (strToLower question) ∧
      ¬ kwMatches skillsKeywords (strToLower question) ∧
      ¬ kwMatches growthKeywords (strToLower question) ∧
      ¬ kwMatches jobKeywords (strToLower question) ∧
      ¬ kwMatches educationKeywords (strToLower question) ∧
      ¬ kwMatches startupKeywords (strToLower question) ∧
      ¬ kwMatches remoteKeywords (strToLower question)) := by
  simp only [detectCategory_eq_prop]
  split_ifs with h0 h1 h2 h3 h4 h5 h6 <;> simp_all

/-- **C9.** Every request-handling operation (recommend, quiz-recommend,
skill-gap, learning-roadmap, career-chat), modeled with explicit state
passing, leaves the career catalog and the skill-roadmap table unchanged:
the post-state equals the pre-state for every input. -/
theorem handlers_preserve_state
    (st : ServerState) (student : Student) (domain : String) (skills : List String)
    (target : Option String) (current : List String) (data : ChatContext) :
    (recommendCareerHandler st student).2 = st ∧
    (quizRecommendCareerHandler st domain skills).2 = st ∧
    (skillGapHandler st target current).2 = st ∧
    (learningRoadmapHandler st target current).2 = st ∧
    (careerChatHandler st data).2 = st :=
  ⟨rfl, rfl, rfl, rfl, rfl⟩

/-- **C10.** For every `ChatContext` whose career field is empty or absent,
the career-guidance lookup nevertheless succeeds with the FIRST table
entry (`"software engineer"`), because the empty lower-cased career string
is a substring of every key under the bidirectional containment test;
consequently a question matching no category keyword returns the
guidance-present general template (with the empty career interpolated), not
the fully generic one. -/
theorem empty_career_matches_first_guidance
    (data : ChatContext) (h : data.career = none ∨ data.career = some "") :
    findGuidance "" = some softwareEngineerGuidance ∧
    (detectCategory (strToLower (data.question.getD "")) = "general" →
      getRuleBasedResponse data = generalWithGuidance "" softwareEngineerGuidance ∧
      getRuleBasedResponse data ≠ generalGeneric) := by
  have hcar : data.career.getD "" = "" := by
    rcases h with h | h <;> simp [h]
  have hfg : findGuidance "" = some softwareEngineerGuidance := by decide
  refine ⟨hfg, ?_⟩
  intro hcat
  have hresp : getRuleBasedResponse data =
      generalWithGuidance "" softwareEngineerGuidance := by
    simp [getRuleBasedResponse, hcar, hcat, hfg]
  refine ⟨hresp, ?_⟩
  rw [hresp]
  decide

/-- **C10 (witness).** The claim at a context with `career = some ""` and the
keywordless question `"hello"`. -/
theorem empty_career_matches_first_guidance_witness :
    (emptyCareerChat.career = none ∨ emptyCareerChat.career = some "") ∧
    (findGuidance "" = some softwareEngineerGuidance ∧
     (detectCategory (strToLower (emptyCareerChat.question.getD "")) = "general" →
       getRuleBasedResponse emptyCareerChat =
         generalWithGuidance "" softwareEngineerGuidance ∧
       getRuleBasedResponse emptyCareerChat ≠ generalGeneric)) :=
  ⟨Or.inr rfl, empty_career_matches_first_guidance emptyCareerChat (Or.inr rfl)⟩

end Nexus
